import Mathlib

/-!
Verification development for the Great Salt Lake heatmap data engine.

The JavaScript sources are shallowly embedded over exact rational
arithmetic: every JavaScript number that the engine manipulates is a
finite IEEE value, modelled here as a rational.  Transcendental library
calls (Math.sin, Math.cos, the proj4 map projection) and the stream of
Math.random draws are modelled as explicit function parameters, since
the code treats them as opaque value sources.
-/

namespace GSL

/-- Model of a JSON/JavaScript field value as it occurs in a reading or
site record: a finite number (modelled as a rational), a string, a
boolean, or null.  Absent fields are modelled by `Option` at the lookup
site. -/
inductive JSValue where
  | num (q : ℚ)
  | str (s : String)
  | boolean (b : Bool)
  | jnull
deriving DecidableEq, Repr

/-- Numeric value of a list of decimal digit characters. -/
def digitsToNat (ds : List Char) : ℕ :=
  ds.foldl (fun a c => a * 10 + (c.toNat - 48)) 0

/-- Model of the JavaScript parseFloat builtin on the decimal-literal
fragment exercised by this code base: optional leading spaces, optional
sign, an integer part and an optional fractional part, with trailing
garbage ignored.  A string with no leading digits parses to NaN in
JavaScript, modelled as `none`. -/
def jsParseFloat (s : String) : Option ℚ :=
  let cs := s.data.dropWhile (fun c => c = ' ')
  let (sgn, cs1) :=
    match cs with
    | '-' :: rest => ((-1 : ℚ), rest)
    | '+' :: rest => ((1 : ℚ), rest)
    | _ => ((1 : ℚ), cs)
  let intDigits := cs1.takeWhile Char.isDigit
  let rest := cs1.dropWhile Char.isDigit
  let fracDigits :=
    match rest with
    | '.' :: r2 => r2.takeWhile Char.isDigit
    | _ => []
  if intDigits = [] ∧ fracDigits = [] then none
  else some (sgn * ((digitsToNat intDigits : ℚ) +
    (digitsToNat fracDigits : ℚ) / (10 ^ fracDigits.length)))

/-- Model of parseFloat applied to an arbitrary field value: numbers
parse to themselves, strings through the decimal parser, and null or
boolean values to NaN (`none`), exactly as the isNaN guards in the
source treat them. -/
def parseFloatOf : JSValue → Option ℚ
  | .num q => some q
  | .str s => jsParseFloat s
  | _ => none

/-- A raw reading record: an ordered property bag, as a JavaScript
object literal is (JavaScript objects cannot hold duplicate keys, and
key iteration order is insertion order). -/
abbrev Reading := List (String × JSValue)

/-- Field lookup on a reading, `none` when the field is absent. -/
def getField (r : Reading) (k : String) : Option JSValue :=
  (r.find? (fun kv => kv.1 = k)).map (fun kv => kv.2)

/-- One candidate step of the extractors: the source pattern
`reading[k] !== undefined && reading[k] !== null` followed by
`parseFloat` and an isNaN check; any failure yields `none` so the
caller falls through to the next candidate. -/
def tryParseField (r : Reading) (k : String) : Option ℚ :=
  match getField r k with
  | some v => if v = .jnull then none else parseFloatOf v
  | none => none

/-- The exact laboratory-density field names tried first by the
extractor, including the embedded-newline and literal-backslash-n
variants of the upstream schema. -/
def EXACT_LAB_NAMES : List String :=
  ["LABminusDENg/cm3", "LABminusDEN\ng/cm3", "LABminusDEN\\ng/cm3"]

/-- Whether the character list `sub` occurs as a contiguous run at the
start of `hay`. -/
def startsWithChars : List Char → List Char → Bool
  | [], _ => true
  | _ :: _, [] => false
  | a :: as, b :: bs => a = b && startsWithChars as bs

/-- Whether the character list `sub` occurs contiguously anywhere in
`hay`: model of the JavaScript String.includes test. -/
def containsSubCh (sub : List Char) : List Char → Bool
  | [] => startsWithChars sub []
  | c :: cs => startsWithChars sub (c :: cs) || containsSubCh sub cs

/-- String-level wrapper for the substring test. -/
def strContainsSub (hay sub : String) : Bool :=
  containsSubCh sub.data hay.data

/-- The loop over the exact laboratory-density names: first name whose
field is present, non-null and numerically parseable wins; a failing
candidate falls through to the next name. -/
def firstExactParse (r : Reading) : List String → Option ℚ
  | [] => none
  | k :: ks =>
    match tryParseField r k with
    | some d => some d
    | none => firstExactParse r ks

/-- The substring fallback: the first key of the record that contains
the lab-density substring, numerically parsed; mirrors
Object.keys(reading).find(key.includes LABminusDEN) followed by the
null and isNaN guards (equivalent on duplicate-free JavaScript
objects). -/
def trySubstrLab (r : Reading) : Option ℚ :=
  match r.find? (fun kv => strContainsSub kv.1 "LABminusDEN") with
  | some kv => if kv.2 = .jnull then none else parseFloatOf kv.2
  | none => none

/-- Density derived from a generic salinity field by the fixed linear
approximation of the source: 1 + salinity times 0.0008. -/
def trySalinityDerived (r : Reading) : Option ℚ :=
  match tryParseField r "salinity" with
  | some s => some (1 + s * (8 / 10000))
  | none => none

/-- Density extractor of the data loader, translated control-flow for
control-flow: exact lab names, then a key containing the lab substring,
then a generic density field, then salinity-derived density, and `none`
when every candidate fails. -/
def extractDensityValue (r : Reading) : Option ℚ :=
  match firstExactParse r EXACT_LAB_NAMES with
  | some d => some d
  | none =>
    match trySubstrLab r with
    | some d => some d
    | none =>
      match tryParseField r "density" with
      | some d => some d
      | none => trySalinityDerived r

/-- The first-success chain the specification describes, assembled from
the individual candidate extractors. -/
def densityCandidateChain (r : Reading) : Option ℚ :=
  ((firstExactParse r EXACT_LAB_NAMES).orElse fun _ =>
    ((trySubstrLab r).orElse fun _ =>
      ((tryParseField r "density").orElse fun _ =>
        trySalinityDerived r)))

/-- One planar interpolation sample of the heatmap renderer: projected
station position and its scalar value. -/
structure SamplePoint where
  x : ℚ
  y : ℚ
  value : ℚ
deriving DecidableEq, Repr

/-- Squared planar distance from the query point to a sample. -/
def distSq (x y : ℚ) (p : SamplePoint) : ℚ :=
  (x - p.x) ^ 2 + (y - p.y) ^ 2

/-- The exact-coincidence threshold on the squared distance. -/
def EPSILON_SQ : ℚ := 1 / 10000

/-- The loop body of the IDW interpolator: walks the samples in list
order, short-circuits on the first sample whose squared distance is
below the threshold, and otherwise accumulates value over weight sums
with weight 1 over squared distance (power 2). -/
def idwGo (x y : ℚ) : List SamplePoint → ℚ → ℚ → Option ℚ
  | [], num, den => if den = 0 then none else some (num / den)
  | p :: ps, num, den =>
    let dsq := distSq x y p
    if dsq < EPSILON_SQ then some p.value
    else idwGo x y ps (num + p.value * (1 / dsq)) (den + 1 / dsq)

/-- Inverse-distance-weighted estimate at a planar point from a sample
set, translated from the idw closure of the heatmap renderer. -/
def idw (x y : ℚ) (points : List SamplePoint) : Option ℚ :=
  idwGo x y points 0 0

/-- Viewport width of the renderer. -/
def MAP_WIDTH : ℚ := 800

/-- Viewport height of the renderer. -/
def MAP_HEIGHT : ℚ := 500

/-- Grid cell edge length of the rasterizer. -/
def cellSize : ℚ := 5

/-- Number of grid columns: ceil of width over cell size. -/
def gridCols : ℕ := (⌈MAP_WIDTH / cellSize⌉).toNat

/-- Number of grid rows: ceil of height over cell size. -/
def gridRows : ℕ := (⌈MAP_HEIGHT / cellSize⌉).toNat

/-- Horizontal center of a grid cell. -/
def cellCenterX (col : ℕ) : ℚ := col * cellSize + cellSize / 2

/-- Vertical center of a grid cell. -/
def cellCenterY (row : ℕ) : ℚ := row * cellSize + cellSize / 2

/-- Whether the rasterization loop paints grid cell (col, row) of one
region canvas, given that region sample set: the source paints the cell
exactly when the sample set is non-empty and the IDW estimate at the
cell center is non-null.  No geometry, projection or containment data
enters this decision. -/
def cellPainted (pts : List SamplePoint) (col row : ℕ) : Bool :=
  !pts.isEmpty && (idw (cellCenterX col) (cellCenterY row) pts).isSome

/-- Modelled from the spec: the per-cell polygon containment test the
specification attributes to the rasterizer.  The repository performs no
such test (clipping is delegated to SVG clip paths after the raster is
complete), so the containment predicate is modelled here from the
specification words as the standard even-odd ray-crossing test, over
the polygon given in projected viewport coordinates. -/
def edgeCrosses (px py : ℚ) (a b : ℚ × ℚ) : Bool :=
  (decide (a.2 > py) != decide (b.2 > py)) &&
    decide (px < (b.1 - a.1) * (py - a.2) / (b.2 - a.2) + a.1)

/-- Modelled from the spec: even-odd point-in-polygon test over the
closed edge cycle of the vertex list. -/
def pointInPolygon (px py : ℚ) (poly : List (ℚ × ℚ)) : Bool :=
  (poly.zip (poly.rotate 1)).foldl
    (fun acc e => if edgeCrosses px py e.1 e.2 then !acc else acc) false

/-- One boundary feature of the lake outline: an optional name property
and one polygon ring of geographic vertices. -/
structure Feature where
  name : Option String
  ring : List (ℚ × ℚ)
deriving DecidableEq, Repr

/-- The fixed simplified single-polygon lake shape used as the fallback
when the boundary-geometry feed fails: one unnamed feature whose closed
ring approximates the lake. -/
def createSimpleGeoJSON : List Feature :=
  [{ name := none,
     ring := [(-1129/10, 414/10), (-1126/10, 416/10), (-1122/10, 415/10),
              (-1120/10, 412/10), (-1121/10, 408/10), (-1123/10, 407/10),
              (-1127/10, 408/10), (-1129/10, 411/10), (-1129/10, 414/10)] }]

/-- The boundary-geometry substitution of the component load effect:
the fetched feature collection when the feed succeeded, and the fixed
simplified shape when it timed out or failed. -/
def lakeDataOf (fetched : Option (List Feature)) : List Feature :=
  fetched.getD createSimpleGeoJSON

/-- Whether a character is an ASCII lowercase letter or digit. -/
def isAlnumLower (c : Char) : Bool :=
  (97 ≤ c.toNat && c.toNat ≤ 122) || (48 ≤ c.toNat && c.toNat ≤ 57)

/-- Collapse of consecutive dashes to a single dash, the g-flagged
run replacement of the renderer name cleaning. -/
def dedupDash : List Char → List Char
  | [] => []
  | [c] => [c]
  | a :: b :: rest =>
    if a = '-' && b = '-' then dedupDash (b :: rest)
    else a :: dedupDash (b :: rest)

/-- Removal of one leading and one trailing dash, mirroring the
trailing regex replacement of the renderer. -/
def trimDash (l : List Char) : List Char :=
  let l1 := match l with
    | '-' :: rest => rest
    | _ => l
  match l1.reverse with
  | '-' :: rest => rest.reverse
  | _ => l1

/-- The clip-path name cleaning of the renderer: lowercase, replace
every non-alphanumeric run with a dash, trim boundary dashes. -/
def cleanName (s : String) : List Char :=
  trimDash (dedupDash ((s.data.map Char.toLower).map
    (fun c => if isAlnumLower c then c else '-')))

/-- The effective name of a feature at a given index: the name property
when present and non-empty (JavaScript truthiness), the literal
feature-index fallback otherwise, then cleaned. -/
def featureCleanName (idx : ℕ) (f : Feature) : List Char :=
  cleanName (match f.name with
    | some s => if s = "" then "feature-" ++ toString idx else s
    | none => "feature-" ++ toString idx)

/-- The north and south clip-path identification loop of the renderer:
walks the features, classifying by whether the cleaned name contains
north or south; a later match overwrites an earlier one. -/
def classifyFeatures (features : List Feature) : Option ℕ × Option ℕ :=
  features.enum.foldl
    (fun acc p =>
      let nm := featureCleanName p.1 p.2
      if containsSubCh "north".data nm then (some p.1, acc.2)
      else if containsSubCh "south".data nm then (acc.1, some p.1)
      else acc)
    (none, none)

/-- Whether a region raster canvas received at least one painted cell
during the grid scan, the cellsDrawn greater than zero gate of the
renderer. -/
def canvasHasData (pts : List SamplePoint) : Bool :=
  decide (∃ col < gridCols, ∃ row < gridRows, cellPainted pts col row = true)

/-- The image-compositing step of the renderer: a region heatmap image
is appended exactly when that region canvas has painted cells and its
clip path was identified from a feature name. -/
def renderImages (features : List Feature)
    (northPts southPts : List SamplePoint) : Bool × Bool :=
  let ids := classifyFeatures features
  (canvasHasData northPts && ids.1.isSome,
   canvasHasData southPts && ids.2.isSome)

/-- A processed station as the reconciler consumes it: stable id,
display name, resolved coordinates and their source tag. -/
structure Station where
  id : String
  name : String
  longitude : ℚ
  latitude : ℚ
  coordsSource : String
deriving DecidableEq, Repr

/-- A calendar year-month key.  The source represents it as a
zero-padded YYYY-MM string whose lexicographic order coincides with the
componentwise lexicographic order modelled here. -/
abbrev TimePoint := ℕ × ℕ

/-- The fixed allowed-site identifier list of the data loader. -/
def ALLOWED_SITES : List String :=
  ["AC3", "AIS", "AS2", "FB2", "RT4", "RD2", "SJ-1", "RD1", "LVG4"]

/-- Index of the station owning an id under the JavaScript object-write
semantics of the mock generators: each station writes the per-id slot
in iteration order, so with duplicate ids the last index wins. -/
def stationIdxGo (sid : String) : List Station → ℕ → Option ℕ → Option ℕ
  | [], _, acc => acc
  | s :: rest, i, acc =>
    stationIdxGo sid rest (i + 1) (if s.id = sid then some i else acc)

/-- Station index lookup for the mock-value formulas. -/
def stationIdx (stations : List Station) (sid : String) : Option ℕ :=
  stationIdxGo sid stations 0 none

/-- The temperature factor of the mock density formula.  The source
guards with JavaScript truthiness, so an absent temperature and a
temperature equal to zero both contribute nothing. -/
def densityTempFactor : Option ℚ → ℚ
  | some t => if t = 0 then 0 else (t - 30) / 50 * (3 / 100)
  | none => 0

/-- The temperature factor of the mock salinity formula, with the same
truthiness guard. -/
def salinityTempFactor : Option ℚ → ℚ
  | some t => if t = 0 then 0 else (t - 50) / 50 * (-10)
  | none => 0

/-- One mock density value, translated term for term from the mock
generator: base 1.10 plus temperature, secular, seasonal, station and
random factors, clamped into the interval from 1.02 to 1.28.  The
parameter sinM models the float Math.sin of two pi times month minus
one over twelve, and rand models the Math.random draw for the time
point and station index. -/
def mockDensityValue (sinM : ℕ → ℚ) (rand : TimePoint → ℕ → ℚ) (n : ℕ)
    (tempData : TimePoint → Option ℚ) (tp : TimePoint) (idx : ℕ) : ℚ :=
  let tempFactor := densityTempFactor (tempData tp)
  let yearFactor := ((tp.1 : ℚ) - 2000) * (5 / 10000)
  let seasonalFactor := sinM tp.2 * (1 / 100)
  let stationFactor := ((idx : ℚ) / (n : ℚ)) * (5 / 100)
  let randomFactor := (rand tp idx - 1 / 2) * (15 / 1000)
  max (102/100) (min (128/100)
    (11/10 + tempFactor + yearFactor + seasonalFactor + stationFactor + randomFactor))

/-- One mock salinity value, translated term for term from the mock
generator: base 150, clamped into the interval from 30 to 280. -/
def mockSalinityValue (sinM : ℕ → ℚ) (rand : TimePoint → ℕ → ℚ) (n : ℕ)
    (tempData : TimePoint → Option ℚ) (tp : TimePoint) (idx : ℕ) : ℚ :=
  let tempFactor := salinityTempFactor (tempData tp)
  let yearFactor := ((tp.1 : ℚ) - 2000) * (1 / 10)
  let seasonalFactor := sinM tp.2 * (-15)
  let stationFactor := ((idx : ℚ) / (n : ℚ)) * 30
  let randomFactor := (rand tp idx - 1 / 2) * 20
  max 30 (min 280
    (150 + tempFactor + yearFactor + seasonalFactor + stationFactor + randomFactor))

/-- The mock density series over a station list and time-point list, as
a lookup: defined exactly for the generated time points and station
ids. -/
def generateMockDensityForStations (sinM : ℕ → ℚ) (rand : TimePoint → ℕ → ℚ)
    (stations : List Station) (timePoints : List TimePoint)
    (tempData : TimePoint → Option ℚ) (tp : TimePoint) (sid : String) : Option ℚ :=
  if tp ∈ timePoints then
    match stationIdx stations sid with
    | some i => some (mockDensityValue sinM rand stations.length tempData tp i)
    | none => none
  else none

/-- The mock salinity series over a station list and time-point list. -/
def generateMockSalinityForStations (sinM : ℕ → ℚ) (rand : TimePoint → ℕ → ℚ)
    (stations : List Station) (timePoints : List TimePoint)
    (tempData : TimePoint → Option ℚ) (tp : TimePoint) (sid : String) : Option ℚ :=
  if tp ∈ timePoints then
    match stationIdx stations sid with
    | some i => some (mockSalinityValue sinM rand stations.length tempData tp i)
    | none => none
  else none

/-- The synthetic-supplement pass over one variable: a real extracted
value always stands, and a still-missing pair inside the reconciled
time-point and station lists receives the synthetic value.  Pairs
outside those lists are left exactly as the real lookup holds them. -/
def supplementSeries (real synth : TimePoint → String → Option ℚ)
    (stations : List Station) (timePoints : List TimePoint)
    (tp : TimePoint) (sid : String) : Option ℚ :=
  match real tp sid with
  | some v => some v
  | none =>
    if tp ∈ timePoints ∧ stations.any (fun s => s.id = sid) then synth tp sid
    else none

/-- Lexicographic year-month order, matching the lexicographic sort of
zero-padded YYYY-MM strings. -/
def tpLe (a b : TimePoint) : Bool :=
  a.1 < b.1 || (a.1 = b.1 && a.2 ≤ b.2)

/-- Ordered insertion for the time-point sort. -/
def insertTP (a : TimePoint) : List TimePoint → List TimePoint
  | [] => [a]
  | b :: rest => if tpLe a b then a :: b :: rest else b :: insertTP a rest

/-- Ascending sort of the time-point list. -/
def sortTP : List TimePoint → List TimePoint
  | [] => []
  | a :: rest => insertTP a (sortTP rest)

/-- The fixed mock station ring of the degenerate-input path: the
allowed site ids placed on a circle around the lake center.  The
parameters circleCos and circleSin model the float Math.cos and
Math.sin of index over count times two pi. -/
def mockStations (circleCos circleSin : ℕ → ℚ) : List Station :=
  ALLOWED_SITES.enum.map (fun p =>
    { id := p.2, name := "Site " ++ p.2,
      longitude := -1125/10 + (2/10) * circleCos p.1,
      latitude := 41 + (2/10) * circleSin p.1,
      coordsSource := "mock" })

/-- The month range from January 2000 through the current month of the
degenerate-input path. -/
def mockTimePoints (endYear endMonth : ℕ) : List TimePoint :=
  (List.range (endYear + 1 - 2000)).flatMap (fun dy =>
    (List.range (if 2000 + dy = endYear then endMonth else 12)).map
      (fun dm => (2000 + dy, dm + 1)))

/-- The mock temperature formula of the degenerate-input path. -/
def mockTempValue (sinM : ℕ → ℚ) (randT : TimePoint → ℚ) (tp : TimePoint) : ℚ :=
  50 + sinM tp.2 * 25 + ((tp.1 : ℚ) - 2000) * (2/10) + (randT tp - 1/2) * 5

/-- The reconciled output of the data loader: the station list, the
sorted time-point list, and the per-variable value lookups. -/
structure LoadResult where
  stations : List Station
  timePoints : List TimePoint
  density : TimePoint → String → Option ℚ
  salinity : TimePoint → String → Option ℚ
  temperature : TimePoint → Option ℚ

/-- The pure reconciliation core of loadSiteAndTempData, from the point
where the extracted stations, filtered sorted time points, averaged
temperature lookup, per-variable real lookups and the per-variable
has-real flags are in hand: generate or supplement density and
salinity when the station and time-point lists are viable, and
otherwise discard the extracted data and regenerate a complete mock
dataset over the fixed site ids and the full month range. -/
def loadSiteAndTempDataCore (sinM circleCos circleSin : ℕ → ℚ)
    (randD randS : TimePoint → ℕ → ℚ) (randT : TimePoint → ℚ)
    (endYear endMonth : ℕ)
    (stations0 : List Station) (timePoints0 : List TimePoint)
    (temp0 : TimePoint → Option ℚ)
    (densityReal salinityReal : TimePoint → String → Option ℚ)
    (hasRealDensity hasRealSalinity : Bool) : LoadResult :=
  if stations0 ≠ [] ∧ timePoints0 ≠ [] then
    let density :=
      if hasRealDensity then
        supplementSeries densityReal
          (generateMockDensityForStations sinM randD stations0 timePoints0 temp0)
          stations0 timePoints0
      else generateMockDensityForStations sinM randD stations0 timePoints0 temp0
    let salinity :=
      if hasRealSalinity then
        supplementSeries salinityReal
          (generateMockSalinityForStations sinM randS stations0 timePoints0 temp0)
          stations0 timePoints0
      else generateMockSalinityForStations sinM randS stations0 timePoints0 temp0
    { stations := stations0, timePoints := timePoints0,
      density := density, salinity := salinity, temperature := temp0 }
  else
    let stations1 := mockStations circleCos circleSin
    let tps1 := sortTP (timePoints0 ++
      (mockTimePoints endYear endMonth).filter (fun tp => tp ∉ timePoints0))
    let temp1 : TimePoint → Option ℚ := fun tp =>
      if tp ∈ tps1 then
        match temp0 tp with
        | some t => if t = 0 then some (mockTempValue sinM randT tp) else some t
        | none => some (mockTempValue sinM randT tp)
      else temp0 tp
    { stations := stations1, timePoints := tps1,
      density := generateMockDensityForStations sinM randD stations1 tps1 temp1,
      salinity := generateMockSalinityForStations sinM randS stations1 tps1 temp1,
      temperature := temp1 }

/-- The numeric filter of the range calculator: only number-typed,
non-NaN values survive (NaN is outside the rational model). -/
def numOf : JSValue → Option ℚ
  | .num q => some q
  | _ => none

/-- The flattened numeric value list of a variable lookup, month maps
in iteration order. -/
def collectValues (lookup : List (List JSValue)) : List ℚ :=
  lookup.flatMap (fun month => month.filterMap numOf)

/-- Fold-based minimum over a non-empty value list, the Math.min
spread of the source. -/
def minList (x : ℚ) (xs : List ℚ) : ℚ := xs.foldl min x

/-- Fold-based maximum over a non-empty value list. -/
def maxList (x : ℚ) (xs : List ℚ) : ℚ := xs.foldl max x

/-- The range calculator of the data loader: padded min and max over
all numeric values, with the JavaScript falsy-or fallbacks on the
padding and on the degenerate fix-up, and the fixed pair (0, 1) on an
empty value list. -/
def calculateRange (lookup : List (List JSValue)) : ℚ × ℚ :=
  match collectValues lookup with
  | [] => (0, 1)
  | v :: vs =>
    let minVal := minList v vs
    let maxVal := maxList v vs
    let p1 := (maxVal - minVal) * (2/100)
    let padding := if p1 = 0 then maxVal * (2/100) else p1
    let r0 := max 0 (minVal - padding)
    let r1 := maxVal + padding
    if r1 ≤ r0 then
      (max 0 (r0 * (9/10)), if r1 * (11/10) = 0 then 1/10 else r1 * (11/10))
    else (r0, r1)

/-- The variable-specific default applied after the range calculation
for density: the fixed pair (1.0, 1.25) when the computed range is the
empty-input pair (0, 1). -/
def finalDensityRange (lookup : List (List JSValue)) : ℚ × ℚ :=
  let r := calculateRange lookup
  if r.1 = 0 ∧ r.2 = 1 then (1, 125/100) else r

/-- The variable-specific default applied after the range calculation
for salinity: the fixed pair (50, 250). -/
def finalSalinityRange (lookup : List (List JSValue)) : ℚ × ℚ :=
  let r := calculateRange lookup
  if r.1 = 0 ∧ r.2 = 1 then (50, 250) else r

/-- An embedded point-geometry object as the coordinate normalizer sees
it after any JSON parse: a type tag and an optional coordinate array
whose members may be arbitrary JSON values. -/
structure GeomObj where
  typ : String
  coordinates : Option (List JSValue)
deriving DecidableEq, Repr

/-- The geom field of a raw site record: an object, a string that
parses to an object, or a string or value that yields no usable
object. -/
inductive GeomField where
  | obj (g : GeomObj)
  | strOk (g : GeomObj)
  | strBad
deriving DecidableEq, Repr

/-- A raw site record of the station feed, restricted to the fields the
coordinate normalizer reads. -/
structure SiteRecord where
  site : Option String
  idNum : ℕ
  geom : Option GeomField
  utmeasting : Option JSValue
  utmnorthing : Option JSValue
deriving DecidableEq, Repr

/-- A normalized station as the coordinate normalizer returns it.  The
coordinate slots carry JavaScript values, because the geometry path of
the source copies the embedded coordinate members without a numeric
check. -/
structure RawStation where
  id : String
  name : String
  longitude : JSValue
  latitude : JSValue
  coordsSource : String
deriving DecidableEq, Repr

/-- The usable geometry object of a geom field, after the JSON parse
attempt of the source (a failed parse leaves no object). -/
def geomObjOf : Option GeomField → Option GeomObj
  | some (.obj g) => some g
  | some (.strOk g) => some g
  | _ => none

/-- The well-formed point test of the source on a geometry object: type
Point with a coordinate array of exactly two members, which are then
taken verbatim. -/
def geomPointOf (site : SiteRecord) : Option (JSValue × JSValue) :=
  match geomObjOf site.geom with
  | some g =>
    if g.typ = "Point" then
      match g.coordinates with
      | some [c0, c1] => some (c0, c1)
      | _ => none
    else none
  | none => none

/-- The parsed UTM pair of a site record, mirroring the loose non-null
guards and the parseFloat isNaN checks of the source. -/
def utmPairOf (site : SiteRecord) : Option (ℚ × ℚ) :=
  match site.utmeasting, site.utmnorthing with
  | some ev, some nv =>
    if ev = .jnull || nv = .jnull then none
    else
      match parseFloatOf ev, parseFloatOf nv with
      | some e, some n => some (e, n)
      | _, _ => none
  | _, _ => none

/-- The station identifier fallback of the source, with JavaScript
truthiness on the site field. -/
def siteStationId (site : SiteRecord) : String :=
  match site.site with
  | some s => if s = "" then "site-" ++ toString site.idNum else s
  | none => "site-" ++ toString site.idNum

/-- The display-name fallback of the source. -/
def siteStationName (site : SiteRecord) : String :=
  match site.site with
  | some s => if s = "" then "Site " ++ toString site.idNum else s
  | none => "Site " ++ toString site.idNum

/-- The coordinate normalizer, translated from processSiteCoordinates.
The parameter proj models the proj4 forward conversion from UTM zone
12N easting and northing to a longitude-latitude pair of finite
numbers; the external library is total here, matching the
exception-absorbing catch of the source.  Preference order: embedded
point geometry, then parsed UTM conversion, then the fixed default
coordinate, and a station record is returned in every case. -/
def processSiteCoordinates (proj : ℚ → ℚ → ℚ × ℚ) (site : SiteRecord) : RawStation :=
  match geomPointOf site with
  | some c =>
    { id := siteStationId site, name := siteStationName site,
      longitude := c.1, latitude := c.2, coordsSource := "geom" }
  | none =>
    match utmPairOf site with
    | some en =>
      { id := siteStationId site, name := siteStationName site,
        longitude := .num (proj en.1 en.2).1, latitude := .num (proj en.1 en.2).2,
        coordsSource := "utm" }
    | none =>
      { id := siteStationId site, name := siteStationName site,
        longitude := .num (-1125/10), latitude := .num 41,
        coordsSource := "default" }

/-- Whether a JavaScript value is a (finite, by the rational model)
number. -/
def isNumV : JSValue → Bool
  | .num _ => true
  | _ => false

/-- Modelled from the spec: the temperature factor exactly as the
specification formula words it, applying the linear term whenever the
reconciled temperature is defined, with no exception at zero. -/
def specClaimTempFactor : Option ℚ → ℚ
  | some t => (t - 30) / 50 * (3 / 100)
  | none => 0

/-- A one-station, one-month concrete instance of the reconciliation
core: no real density or salinity, the reconciled temperature defined
and equal to zero, every random draw fixed at one half, and the
seasonal sine zero (the January value of the sine term is the sine of
zero). -/
def zeroTempLoad : LoadResult :=
  loadSiteAndTempDataCore (fun _ => 0) (fun _ => 0) (fun _ => 0)
    (fun _ _ => 1/2) (fun _ _ => 1/2) (fun _ => 1/2) 2000 1
    [{ id := "A", name := "A", longitude := 0, latitude := 0, coordsSource := "geom" }]
    [(2000, 1)] (fun tp => if tp = (2000, 1) then some 0 else none)
    (fun _ _ => none) (fun _ _ => none) false false

/-- C9: the density extractor applies the priority order exact lab
names (including newline variants), then any key containing the lab
substring, then the generic density field, then 1 plus 0.0008 times
the generic salinity field, first success winning; a string lab value
"1.18" yields the number 1.18, failing candidates fall through, and
the extractor returns no value when every candidate fails. -/
theorem density_extraction_priority :
    (∀ r : Reading, extractDensityValue r = densityCandidateChain r) ∧
    extractDensityValue [("LABminusDENg/cm3", .str "1.18")] = some (118/100) ∧
    extractDensityValue [("salinity", .num 100)] = some (1 + 100 * (8/10000)) ∧
    extractDensityValue [("LABminusDENg/cm3", .str "abc"), ("density", .str "x")] = none := by
  refine ⟨fun r => ?_, ?_, ?_, ?_⟩
  · unfold extractDensityValue densityCandidateChain
    cases firstExactParse r EXACT_LAB_NAMES <;>
      cases trySubstrLab r <;>
      cases tryParseField r "density" <;>
      rfl
  · simp [extractDensityValue, firstExactParse, EXACT_LAB_NAMES, tryParseField, getField,
      trySubstrLab, trySalinityDerived, parseFloatOf, jsParseFloat, digitsToNat,
      strContainsSub, containsSubCh, startsWithChars, List.find?]
    norm_num
  · simp [extractDensityValue, firstExactParse, EXACT_LAB_NAMES, tryParseField, getField,
      trySubstrLab, trySalinityDerived, parseFloatOf, jsParseFloat, digitsToNat,
      strContainsSub, containsSubCh, startsWithChars, List.find?]
  · simp [extractDensityValue, firstExactParse, EXACT_LAB_NAMES, tryParseField, getField,
      trySubstrLab, trySalinityDerived, parseFloatOf, jsParseFloat, digitsToNat,
      strContainsSub, containsSubCh, startsWithChars, List.find?]

/-- C2 counterexample: with two coincident samples holding different
values, interpolation exactly at the shared location returns the first
sample value in list order; the second sample lies within the epsilon
threshold yet its value is not returned, refuting the claim that a
within-epsilon sample always has exactly its own value returned. -/
theorem idw_exact_match_counterexample :
    (⟨0, 0, 2⟩ : SamplePoint) ∈ ([⟨0, 0, 1⟩, ⟨0, 0, 2⟩] : List SamplePoint) ∧
    distSq 0 0 ⟨0, 0, 2⟩ < EPSILON_SQ ∧
    idw 0 0 [⟨0, 0, 1⟩, ⟨0, 0, 2⟩] = some 1 ∧
    idw 0 0 [⟨0, 0, 1⟩, ⟨0, 0, 2⟩] ≠ some 2 := by
  refine ⟨by simp, by norm_num [distSq, EPSILON_SQ], ?_, ?_⟩ <;>
    norm_num [idw, idwGo, distSq, EPSILON_SQ]

/-- Auxiliary: the interpolation loop returns the value of the first
within-epsilon sample, for any accumulator state. -/
lemma idwGo_first_exact (x y : ℚ) (p : SamplePoint) (post : List SamplePoint) :
    ∀ (pre : List SamplePoint) (num den : ℚ),
      (∀ q ∈ pre, ¬ distSq x y q < EPSILON_SQ) →
      distSq x y p < EPSILON_SQ →
      idwGo x y (pre ++ p :: post) num den = some p.value := by
  intro pre
  induction pre with
  | nil =>
    intro num den _ hp
    simp [idwGo, hp]
  | cons q qs ih =>
    intro num den hq hp
    have hq0 : ¬ distSq x y q < EPSILON_SQ := hq q (by simp)
    simp only [List.cons_append, idwGo, if_neg hq0]
    exact ih _ _ (fun r hr => hq r (by simp [hr])) hp

/-- C2 amended: if some sample lies within the epsilon threshold of the
query point, the interpolator returns the value of the first such
sample in iteration order (so when exactly one sample is that close,
its value is returned independent of all the others); and at a third
point away from two coincident samples, the estimate is the average
weighted by one over squared distance with power 2. -/
theorem idw_first_match_and_weighted_average :
    (∀ (x y : ℚ) (pre : List SamplePoint) (p : SamplePoint) (post : List SamplePoint),
      (∀ q ∈ pre, ¬ distSq x y q < EPSILON_SQ) →
      distSq x y p < EPSILON_SQ →
      idw x y (pre ++ p :: post) = some p.value) ∧
    (∀ (x y : ℚ) (a b : SamplePoint), a.x = b.x → a.y = b.y →
      ¬ distSq x y a < EPSILON_SQ →
      idw x y [a, b] =
        some ((a.value * (1 / distSq x y a) + b.value * (1 / distSq x y b)) /
          (1 / distSq x y a + 1 / distSq x y b))) := by
  constructor
  · intro x y pre p post hpre hp
    exact idwGo_first_exact x y p post pre 0 0 hpre hp
  · intro x y a b hx hy hd
    have hb : distSq x y b = distSq x y a := by
      simp [distSq, hx, hy]
    have hdpos : 0 < distSq x y a := by
      have : EPSILON_SQ ≤ distSq x y a := not_lt.mp hd
      have h0 : (0:ℚ) < EPSILON_SQ := by norm_num [EPSILON_SQ]
      linarith
    have hdb : ¬ distSq x y b < EPSILON_SQ := by rw [hb]; exact hd
    have hw : 0 < 1 / distSq x y a := by positivity
    have hden : ¬ ((0:ℚ) + a.value * (1 / distSq x y a) + b.value * (1 / distSq x y b) = 0) →
        True := fun _ => trivial
    simp only [idw, idwGo, if_neg hd, if_neg hdb]
    have hne : (0 : ℚ) + 1 / distSq x y a + 1 / distSq x y b ≠ 0 := by
      rw [hb]; positivity
    rw [if_neg hne]
    congr 1
    rw [hb]
    ring

/-- Witness for the amended C2 theorem: a concrete first-match return
and a concrete two-coincident-sample weighted average. -/
theorem idw_first_match_witness :
    idw 0 0 [⟨0, 0, 5⟩, ⟨3, 3, 9⟩] = some 5 ∧
    idw 3 4 [⟨0, 0, 2⟩, ⟨0, 0, 4⟩] =
      some ((2 * (1 / distSq 3 4 ⟨0, 0, 2⟩) + 4 * (1 / distSq 3 4 ⟨0, 0, 4⟩)) /
        (1 / distSq 3 4 ⟨0, 0, 2⟩ + 1 / distSq 3 4 ⟨0, 0, 4⟩)) := by
  constructor
  · exact idw_first_match_and_weighted_average.1 0 0 [] ⟨0, 0, 5⟩ [⟨3, 3, 9⟩]
      (by simp) (by norm_num [distSq, EPSILON_SQ])
  · exact idw_first_match_and_weighted_average.2 3 4 ⟨0, 0, 2⟩ ⟨0, 0, 4⟩ rfl rfl
      (by norm_num [distSq, EPSILON_SQ])

/-- Auxiliary: the interpolation loop keeps its running estimate inside
the sample value range, stated with the accumulator invariant. -/
lemma idwGo_mem_bounds (lo hi x y : ℚ) :
    ∀ (pts : List SamplePoint) (num den : ℚ),
      (∀ p ∈ pts, lo ≤ p.value ∧ p.value ≤ hi) →
      0 ≤ den → lo * den ≤ num → num ≤ hi * den →
      ∀ v, idwGo x y pts num den = some v → lo ≤ v ∧ v ≤ hi := by
  intro pts
  induction pts with
  | nil =>
    intro num den _ hden h1 h2 v hv
    by_cases hd : den = 0
    · simp [idwGo, hd] at hv
    · have hdpos : 0 < den := lt_of_le_of_ne hden (Ne.symm hd)
      simp only [idwGo, if_neg hd, Option.some.injEq] at hv
      subst hv
      constructor
      · rw [le_div_iff₀ hdpos]
        linarith
      · rw [div_le_iff₀ hdpos]
        linarith
  | cons p ps ih =>
    intro num den hmem hden h1 h2 v hv
    have hp := hmem p (by simp)
    by_cases hex : distSq x y p < EPSILON_SQ
    · simp only [idwGo, if_pos hex, Option.some.injEq] at hv
      subst hv
      exact hp
    · have hdsq : 0 < distSq x y p := by
        have : EPSILON_SQ ≤ distSq x y p := not_lt.mp hex
        have h0 : (0:ℚ) < EPSILON_SQ := by norm_num [EPSILON_SQ]
        linarith
      have hw : 0 < 1 / distSq x y p := by positivity
      simp only [idwGo, if_neg hex] at hv
      refine ih _ _ (fun q hq => hmem q (by simp [hq])) (by linarith) ?_ ?_ v hv
      · nlinarith [hp.1]
      · nlinarith [hp.2]

/-- C10: over a non-empty sample set whose values all lie in an
interval, a returned IDW estimate also lies in that interval, being a
convex combination of the sample values. -/
theorem idw_within_sample_range (lo hi x y : ℚ) (pts : List SamplePoint)
    (_hne : pts ≠ []) (hmem : ∀ p ∈ pts, lo ≤ p.value ∧ p.value ≤ hi)
    (v : ℚ) (hv : idw x y pts = some v) : lo ≤ v ∧ v ≤ hi :=
  idwGo_mem_bounds lo hi x y pts 0 0 hmem le_rfl (by simp) (by simp) v hv

/-- Witness for C10 at a concrete sample set and query point. -/
theorem idw_within_sample_range_witness : (0:ℚ) ≤ 1 ∧ (1:ℚ) ≤ 2 :=
  idw_within_sample_range 0 2 5 0 [⟨0, 0, 1⟩] (by simp) (by norm_num) 1
    (by norm_num [idw, idwGo, distSq, EPSILON_SQ])

/-- Auxiliary: with a positive accumulated weight or a remaining
sample, the interpolation loop always produces an estimate. -/
lemma idwGo_isSome (x y : ℚ) :
    ∀ (pts : List SamplePoint) (num den : ℚ),
      0 ≤ den → (den ≠ 0 ∨ pts ≠ []) →
      (idwGo x y pts num den).isSome = true := by
  intro pts
  induction pts with
  | nil =>
    intro num den _ h
    rcases h with h | h
    · simp [idwGo, h]
    · simp at h
  | cons p ps ih =>
    intro num den hden _
    by_cases hex : distSq x y p < EPSILON_SQ
    · simp [idwGo, hex]
    · have hdsq : 0 < distSq x y p := by
        have : EPSILON_SQ ≤ distSq x y p := not_lt.mp hex
        have h0 : (0:ℚ) < EPSILON_SQ := by norm_num [EPSILON_SQ]
        linarith
      have hw : 0 < 1 / distSq x y p := by positivity
      simp only [idwGo, if_neg hex]
      exact ih _ _ (by linarith) (Or.inl (by positivity))

/-- C3 amended: the rasterization loop paints a region cell exactly
when that region sample set is non-empty (the IDW estimate of a
non-empty sample set is never null): the painted set is independent of
any boundary geometry, no cell center is inverse-projected or
containment-tested, and clipping to the region outline happens only
downstream through SVG clip paths; an empty-sample region paints
nothing, skipped rather than zero-filled. -/
theorem rasterizer_paints_iff_samples (pts : List SamplePoint) (col row : ℕ) :
    cellPainted pts col row = !pts.isEmpty := by
  cases pts with
  | nil => rfl
  | cons p ps =>
    have h := idwGo_isSome (cellCenterX col) (cellCenterY row) (p :: ps) 0 0
      le_rfl (Or.inr (by simp))
    simp [cellPainted, idw, h]

/-- C3 counterexample: a concrete configuration in which grid cell
(0, 0) is painted although its center lies outside the only region
polygon (a small square around the single sample, which itself does lie
inside), refuting the claim that only containment-passing cells are
painted. -/
theorem rasterizer_containment_counterexample :
    cellPainted [⟨400, 250, 1⟩] 0 0 = true ∧
    pointInPolygon (cellCenterX 0) (cellCenterY 0)
      [(395, 245), (405, 245), (405, 255), (395, 255)] = false ∧
    pointInPolygon 400 250 [(395, 245), (405, 245), (405, 255), (395, 255)] = true := by
  refine ⟨?_, ?_, ?_⟩
  · norm_num [cellPainted, idw, idwGo, distSq, EPSILON_SQ, cellCenterX, cellCenterY, cellSize]
  · norm_num [pointInPolygon, edgeCrosses, List.rotate, List.zip, List.zipWith,
      cellCenterX, cellCenterY, cellSize]
  · norm_num [pointInPolygon, edgeCrosses, List.rotate, List.zip, List.zipWith]

/-- Auxiliary: the fold minimum never exceeds its initial value. -/
lemma minList_le_init (x : ℚ) (xs : List ℚ) : minList x xs ≤ x := by
  induction xs generalizing x with
  | nil => exact le_refl x
  | cons y ys ih =>
    have h := ih (min x y)
    calc minList x (y :: ys) = minList (min x y) ys := rfl
      _ ≤ min x y := h
      _ ≤ x := min_le_left x y

/-- Auxiliary: the fold maximum is at least its initial value. -/
lemma le_maxList_init (x : ℚ) (xs : List ℚ) : x ≤ maxList x xs := by
  induction xs generalizing x with
  | nil => exact le_refl x
  | cons y ys ih =>
    have h := ih (max x y)
    calc x ≤ max x y := le_max_left x y
      _ ≤ maxList (max x y) ys := h
      _ = maxList x (y :: ys) := rfl

/-- Auxiliary: the fold maximum is monotone in its initial value. -/
lemma maxList_mono_init (a b : ℚ) (xs : List ℚ) (h : a ≤ b) :
    maxList a xs ≤ maxList b xs := by
  induction xs generalizing a b with
  | nil => exact h
  | cons y ys ih => exact ih (max a y) (max b y) (max_le_max h le_rfl)

/-- Auxiliary: the fold minimum never exceeds the fold maximum. -/
lemma minList_le_maxList (x : ℚ) (xs : List ℚ) : minList x xs ≤ maxList x xs := by
  induction xs generalizing x with
  | nil => exact le_refl x
  | cons y ys ih =>
    calc minList x (y :: ys) = minList (min x y) ys := rfl
      _ ≤ maxList (min x y) ys := ih (min x y)
      _ ≤ maxList (max x y) ys :=
          maxList_mono_init _ _ ys (le_trans (min_le_left x y) (le_max_left x y))
      _ = maxList x (y :: ys) := rfl

/-- Auxiliary: every listed value bounds the fold maximum from below. -/
lemma le_maxList_of_mem (v x : ℚ) (xs : List ℚ) (h : v = x ∨ v ∈ xs) :
    v ≤ maxList x xs := by
  induction xs generalizing x with
  | nil =>
    rcases h with h | h
    · exact le_of_eq h
    · simp at h
  | cons y ys ih =>
    rcases h with h | h
    · subst h
      exact le_maxList_init v (y :: ys)
    · rcases List.mem_cons.mp h with h | h
      · subst h
        calc v ≤ max x v := le_max_right x v
          _ ≤ maxList (max x v) ys := le_maxList_init _ ys
          _ = maxList x (v :: ys) := rfl
      · exact ih (max x y) (Or.inr h)

/-- Auxiliary: the padded-range arithmetic of the range calculator
yields a strictly ordered pair whenever the maximum of the values is
non-negative. -/
lemma paddedRange_lt (m M : ℚ) (hmM : m ≤ M) (hM : 0 ≤ M) :
    (let p1 := (M - m) * (2/100)
     let padding := if p1 = 0 then M * (2/100) else p1
     let r0 := max 0 (m - padding)
     let r1 := M + padding
     if r1 ≤ r0 then
       (max 0 (r0 * (9/10)), if r1 * (11/10) = 0 then 1/10 else r1 * (11/10))
     else (r0, r1) : ℚ × ℚ).1 <
    (let p1 := (M - m) * (2/100)
     let padding := if p1 = 0 then M * (2/100) else p1
     let r0 := max 0 (m - padding)
     let r1 := M + padding
     if r1 ≤ r0 then
       (max 0 (r0 * (9/10)), if r1 * (11/10) = 0 then 1/10 else r1 * (11/10))
     else (r0, r1) : ℚ × ℚ).2 := by
  dsimp only
  by_cases hp1 : (M - m) * (2/100) = 0
  · have hEq : m = M := by
      have := mul_eq_zero.mp hp1
      rcases this with h | h
      · linarith
      · norm_num at h
    subst hEq
    rw [if_pos hp1]
    by_cases hM0 : m = 0
    · subst hM0
      norm_num
    · have hMpos : 0 < m := lt_of_le_of_ne hM (Ne.symm hM0)
      have hr0 : max 0 (m - m * (2/100)) = m * (98/100) := by
        rw [max_eq_right] <;> nlinarith
      rw [hr0, if_neg (by nlinarith)]
      nlinarith
  · have hmlt : m < M := by
      rcases lt_or_eq_of_le hmM with h | h
      · exact h
      · exact absurd (by rw [h]; ring) hp1
    rw [if_neg hp1]
    have hpad : 0 < (M - m) * (2/100) := by nlinarith
    have h1 : max 0 (m - (M - m) * (2/100)) < M + (M - m) * (2/100) := by
      rw [max_lt_iff]
      constructor <;> nlinarith
    rw [if_neg (not_le.mpr h1)]
    exact h1

/-- C6 counterexample: a series holding the single numeric value minus
five drives the range calculator to the inverted pair (0, minus 5.61),
refuting strict min below max on every input series. -/
theorem calculateRange_counterexample :
    calculateRange [[.num (-5)]] = (0, -561/100) ∧
    ¬ (calculateRange [[.num (-5)]]).1 < (calculateRange [[.num (-5)]]).2 := by
  have h : calculateRange [[.num (-5)]] = (0, -561/100) := by
    simp [calculateRange, collectValues, numOf, minList, maxList]
    norm_num
  refine ⟨h, ?_⟩
  rw [h]
  norm_num

/-- C6 amended: the range calculator returns a strictly ordered pair on
an empty series (where the fixed variable-specific defaults also apply)
and on any series containing at least one non-negative numeric value;
a series whose values are all sufficiently negative can produce an
inverted pair instead. -/
theorem calculateRange_min_lt_max (lookup : List (List JSValue))
    (h : collectValues lookup = [] ∨ ∃ v ∈ collectValues lookup, 0 ≤ v) :
    (calculateRange lookup).1 < (calculateRange lookup).2 ∧
    (finalDensityRange lookup).1 < (finalDensityRange lookup).2 ∧
    (finalSalinityRange lookup).1 < (finalSalinityRange lookup).2 ∧
    (collectValues lookup = [] →
      finalDensityRange lookup = (1, 125/100) ∧ finalSalinityRange lookup = (50, 250)) := by
  have hmain : (calculateRange lookup).1 < (calculateRange lookup).2 := by
    rcases hcv : collectValues lookup with _ | ⟨v, vs⟩
    · simp [calculateRange, hcv]
    · rcases h with h | ⟨w, hw, hw0⟩
      · rw [hcv] at h
        exact absurd h (List.cons_ne_nil v vs)
      · rw [hcv] at hw
        have hM : 0 ≤ maxList v vs :=
          le_trans hw0 (le_maxList_of_mem w v vs (List.mem_cons.mp hw))

        have := paddedRange_lt (minList v vs) (maxList v vs) (minList_le_maxList v vs) hM
        simpa [calculateRange, hcv] using this
  refine ⟨hmain, ?_, ?_, ?_⟩
  · unfold finalDensityRange
    by_cases hdef : (calculateRange lookup).1 = 0 ∧ (calculateRange lookup).2 = 1
    · rw [if_pos hdef]
      norm_num
    · rw [if_neg hdef]
      exact hmain
  · unfold finalSalinityRange
    by_cases hdef : (calculateRange lookup).1 = 0 ∧ (calculateRange lookup).2 = 1
    · rw [if_pos hdef]
      norm_num
    · rw [if_neg hdef]
      exact hmain
  · intro hcv
    have hc : calculateRange lookup = (0, 1) := by simp [calculateRange, hcv]
    constructor
    · unfold finalDensityRange
      rw [hc]
      norm_num
    · unfold finalSalinityRange
      rw [hc]
      norm_num

/-- Witness for the amended C6 theorem at the empty series. -/
theorem calculateRange_min_lt_max_witness :
    (calculateRange []).1 < (calculateRange []).2 ∧
    (finalDensityRange []).1 < (finalDensityRange []).2 ∧
    (finalSalinityRange []).1 < (finalSalinityRange []).2 ∧
    (collectValues [] = [] →
      finalDensityRange [] = (1, 125/100) ∧ finalSalinityRange [] = (50, 250)) :=
  calculateRange_min_lt_max [] (Or.inl rfl)

/-- C7 counterexample: a site whose embedded geometry is a well-shaped
Point with two null coordinate members passes the shape test and is
copied verbatim, so the returned station carries null, not finite
numeric, coordinates, tagged geom, even though a perfectly usable UTM
pair was present; refuting the claim that normalization always returns
finite numeric coordinates. -/
theorem processSiteCoordinates_counterexample :
    (processSiteCoordinates (fun e n => (e, n))
      { site := some "X1", idNum := 7,
        geom := some (.obj { typ := "Point", coordinates := some [.jnull, .jnull] }),
        utmeasting := some (.num 420000), utmnorthing := some (.num 4550000) }).longitude
      = .jnull ∧
    (processSiteCoordinates (fun e n => (e, n))
      { site := some "X1", idNum := 7,
        geom := some (.obj { typ := "Point", coordinates := some [.jnull, .jnull] }),
        utmeasting := some (.num 420000), utmnorthing := some (.num 4550000) }).latitude
      = .jnull ∧
    (processSiteCoordinates (fun e n => (e, n))
      { site := some "X1", idNum := 7,
        geom := some (.obj { typ := "Point", coordinates := some [.jnull, .jnull] }),
        utmeasting := some (.num 420000), utmnorthing := some (.num 4550000) }).coordsSource
      = "geom" ∧
    isNumV (processSiteCoordinates (fun e n => (e, n))
      { site := some "X1", idNum := 7,
        geom := some (.obj { typ := "Point", coordinates := some [.jnull, .jnull] }),
        utmeasting := some (.num 420000), utmnorthing := some (.num 4550000) }).longitude
      = false :=
  ⟨rfl, rfl, rfl, rfl⟩

/-- C7 amended: the coordinate normalizer always returns a station (no
input is dropped, no exception raised, modelled by totality), with a
strict preference order: a well-shaped embedded point geometry is
copied verbatim (numeric only when its members are), otherwise a
parseable UTM pair is projected, otherwise the fixed default coordinate
near the lake center is assigned; and outside the geometry path the
returned coordinates are always finite numbers. -/
theorem processSiteCoordinates_fallback (proj : ℚ → ℚ → ℚ × ℚ) (site : SiteRecord) :
    ((∃ c : JSValue × JSValue, geomPointOf site = some c ∧
        (processSiteCoordinates proj site).longitude = c.1 ∧
        (processSiteCoordinates proj site).latitude = c.2 ∧
        (processSiteCoordinates proj site).coordsSource = "geom") ∨
     (∃ en : ℚ × ℚ, geomPointOf site = none ∧ utmPairOf site = some en ∧
        (processSiteCoordinates proj site).longitude = .num (proj en.1 en.2).1 ∧
        (processSiteCoordinates proj site).latitude = .num (proj en.1 en.2).2 ∧
        (processSiteCoordinates proj site).coordsSource = "utm") ∨
     (geomPointOf site = none ∧ utmPairOf site = none ∧
        (processSiteCoordinates proj site).longitude = .num (-1125/10) ∧
        (processSiteCoordinates proj site).latitude = .num 41 ∧
        (processSiteCoordinates proj site).coordsSource = "default")) ∧
    (geomPointOf site = none →
      isNumV (processSiteCoordinates proj site).longitude = true ∧
      isNumV (processSiteCoordinates proj site).latitude = true) := by
  constructor
  · cases hg : geomPointOf site with
    | some c =>
      left
      exact ⟨c, rfl, by simp [processSiteCoordinates, hg], by simp [processSiteCoordinates, hg],
        by simp [processSiteCoordinates, hg]⟩
    | none =>
      cases hu : utmPairOf site with
      | some en =>
        right; left
        exact ⟨en, rfl, rfl, by simp [processSiteCoordinates, hg, hu],
          by simp [processSiteCoordinates, hg, hu], by simp [processSiteCoordinates, hg, hu]⟩
      | none =>
        right; right
        exact ⟨rfl, rfl, by simp [processSiteCoordinates, hg, hu],
          by simp [processSiteCoordinates, hg, hu], by simp [processSiteCoordinates, hg, hu]⟩
  · intro hg
    cases hu : utmPairOf site <;>
      simp [processSiteCoordinates, hg, hu, isNumV]

/-- Witness for the amended C7 theorem: a record with no usable
geometry and no UTM fields receives numeric default coordinates. -/
theorem processSiteCoordinates_fallback_witness :
    isNumV (processSiteCoordinates (fun e n => (e, n))
      { site := none, idNum := 1, geom := none,
        utmeasting := none, utmnorthing := none }).longitude = true ∧
    isNumV (processSiteCoordinates (fun e n => (e, n))
      { site := none, idNum := 1, geom := none,
        utmeasting := none, utmnorthing := none }).latitude = true :=
  (processSiteCoordinates_fallback (fun e n => (e, n))
    { site := none, idNum := 1, geom := none,
      utmeasting := none, utmnorthing := none }).2 rfl

/-- Auxiliary: a non-empty sample set paints every grid cell. -/
lemma cellPainted_of_ne_nil (pts : List SamplePoint) (hne : pts ≠ []) (col row : ℕ) :
    cellPainted pts col row = true := by
  cases pts with
  | nil => exact absurd rfl hne
  | cons p ps =>
    have h := idwGo_isSome (cellCenterX col) (cellCenterY row) (p :: ps) 0 0
      le_rfl (Or.inr (by simp))
    simp [cellPainted, idw, h]

/-- Auxiliary: the grid has a positive number of columns. -/
lemma gridCols_pos : 0 < gridCols := by
  norm_num [gridCols, MAP_WIDTH, cellSize]

/-- Auxiliary: the grid has a positive number of rows. -/
lemma gridRows_pos : 0 < gridRows := by
  norm_num [gridRows, MAP_HEIGHT, cellSize]

/-- Auxiliary: a non-empty sample set leaves its region canvas with
painted cells. -/
lemma canvasHasData_of_ne_nil (pts : List SamplePoint) (hne : pts ≠ []) :
    canvasHasData pts = true := by
  unfold canvasHasData
  rw [decide_eq_true_iff]
  exact ⟨0, gridCols_pos, 0, gridRows_pos, cellPainted_of_ne_nil pts hne 0 0⟩

/-- C8 counterexample: under the boundary-feed fallback the simplified
single-feature shape is substituted, the raster canvases do receive
painted cells for non-empty sample sets, yet the unnamed fallback
feature classifies as neither north nor south, so no clip path is
identified and no heatmap image at all is composited, refuting the
claim of non-empty heatmap output covering the viewport as one
region. -/
theorem fallback_geometry_counterexample :
    lakeDataOf none = createSimpleGeoJSON ∧
    createSimpleGeoJSON.length = 1 ∧
    classifyFeatures createSimpleGeoJSON = (none, none) ∧
    canvasHasData [⟨400, 250, 1⟩] = true ∧
    renderImages createSimpleGeoJSON [⟨400, 250, 1⟩] [⟨100, 100, 2⟩] = (false, false) := by
  refine ⟨rfl, rfl, by decide, canvasHasData_of_ne_nil _ (by simp), ?_⟩
  unfold renderImages
  rw [(by decide : classifyFeatures createSimpleGeoJSON = (none, none))]
  simp

/-- C8 amended: when the boundary feed fails, the fixed simplified
single-polygon shape is substituted and the grid scan still fills the
region raster buffers, but because the fallback feature carries no
north or south name, no clip path is classified and the compositing
step emits no heatmap image for either region: the visible heatmap
output is empty rather than covering the viewport as one region. -/
theorem fallback_geometry_no_images (northPts southPts : List SamplePoint) :
    lakeDataOf none = createSimpleGeoJSON ∧
    renderImages (lakeDataOf none) northPts southPts = (false, false) ∧
    (northPts ≠ [] → canvasHasData northPts = true) ∧
    (southPts ≠ [] → canvasHasData southPts = true) := by
  refine ⟨rfl, ?_, canvasHasData_of_ne_nil northPts, canvasHasData_of_ne_nil southPts⟩
  unfold renderImages lakeDataOf
  rw [(by decide : classifyFeatures (Option.getD none createSimpleGeoJSON) = (none, none))]
  simp

/-- Witness for the amended C8 theorem at concrete sample sets. -/
theorem fallback_geometry_no_images_witness :
    renderImages (lakeDataOf none) [⟨1, 1, 1⟩] [⟨2, 2, 2⟩] = (false, false) ∧
    canvasHasData [⟨1, 1, 1⟩] = true :=
  ⟨(fallback_geometry_no_images [⟨1, 1, 1⟩] [⟨2, 2, 2⟩]).2.1,
   (fallback_geometry_no_images [⟨1, 1, 1⟩] [⟨2, 2, 2⟩]).2.2.1 (by simp)⟩

/-- Auxiliary: the station-index scan succeeds whenever the accumulator
already holds an index or some remaining station owns the id. -/
lemma stationIdxGo_isSome (sid : String) :
    ∀ (l : List Station) (i : ℕ) (acc : Option ℕ),
      (acc.isSome = true ∨ ∃ s ∈ l, s.id = sid) →
      (stationIdxGo sid l i acc).isSome = true := by
  intro l
  induction l with
  | nil =>
    intro i acc h
    rcases h with h | ⟨s, hs, _⟩
    · simpa [stationIdxGo] using h
    · simp at hs
  | cons s rest ih =>
    intro i acc h
    simp only [stationIdxGo]
    by_cases hid : s.id = sid
    · exact ih (i + 1) _ (Or.inl (by simp [hid]))
    · refine ih (i + 1) _ ?_
      rcases h with h | ⟨t, ht, htid⟩
      · exact Or.inl (by simp [hid, h])
      · rcases List.mem_cons.mp ht with rfl | htr
        · exact absurd htid hid
        · exact Or.inr ⟨t, htr, htid⟩

/-- Auxiliary: a listed station always has a station index. -/
lemma stationIdx_isSome (stations : List Station) (s : Station) (hs : s ∈ stations) :
    (stationIdx stations s.id).isSome = true :=
  stationIdxGo_isSome s.id stations 0 none (Or.inr ⟨s, hs, rfl⟩)

/-- Auxiliary: the mock density series is defined on every generated
time point and listed station id. -/
lemma generateMockDensity_isSome (sinM : ℕ → ℚ) (rand : TimePoint → ℕ → ℚ)
    (stations : List Station) (timePoints : List TimePoint)
    (tempData : TimePoint → Option ℚ) (tp : TimePoint) (sid : String)
    (htp : tp ∈ timePoints) (hsid : (stationIdx stations sid).isSome = true) :
    (generateMockDensityForStations sinM rand stations timePoints tempData tp sid).isSome
      = true := by
  unfold generateMockDensityForStations
  rw [if_pos htp]
  cases h : stationIdx stations sid with
  | none => rw [h] at hsid; simp at hsid
  | some i => simp

/-- Auxiliary: the mock salinity series is defined on every generated
time point and listed station id. -/
lemma generateMockSalinity_isSome (sinM : ℕ → ℚ) (rand : TimePoint → ℕ → ℚ)
    (stations : List Station) (timePoints : List TimePoint)
    (tempData : TimePoint → Option ℚ) (tp : TimePoint) (sid : String)
    (htp : tp ∈ timePoints) (hsid : (stationIdx stations sid).isSome = true) :
    (generateMockSalinityForStations sinM rand stations timePoints tempData tp sid).isSome
      = true := by
  unfold generateMockSalinityForStations
  rw [if_pos htp]
  cases h : stationIdx stations sid with
  | none => rw [h] at hsid; simp at hsid
  | some i => simp

/-- Auxiliary: the supplement pass is defined wherever either the real
lookup or the synthetic series covers the pair inside the reconciled
lists. -/
lemma supplementSeries_isSome (real synth : TimePoint → String → Option ℚ)
    (stations : List Station) (timePoints : List TimePoint)
    (tp : TimePoint) (sid : String)
    (h : tp ∈ timePoints ∧ stations.any (fun s => s.id = sid) = true)
    (hsynth : (synth tp sid).isSome = true) :
    (supplementSeries real synth stations timePoints tp sid).isSome = true := by
  unfold supplementSeries
  cases real tp sid with
  | some v => simp
  | none => rw [if_pos h]; exact hsynth

/-- C1: for density and salinity alike, every station of the returned
station list and every time point of the returned time-point list has a
defined value in the reconciled lookup, whichever branch of the
reconciliation ran (full synthesis, supplement of real data, or the
degenerate full mock regeneration); values are rationals in this model,
hence finite. -/
theorem reconciled_series_full_coverage (sinM circleCos circleSin : ℕ → ℚ)
    (randD randS : TimePoint → ℕ → ℚ) (randT : TimePoint → ℚ)
    (endYear endMonth : ℕ) (stations0 : List Station) (timePoints0 : List TimePoint)
    (temp0 : TimePoint → Option ℚ)
    (densityReal salinityReal : TimePoint → String → Option ℚ)
    (hasRealDensity hasRealSalinity : Bool) :
    ∀ s ∈ (loadSiteAndTempDataCore sinM circleCos circleSin randD randS randT
      endYear endMonth stations0 timePoints0 temp0 densityReal salinityReal
      hasRealDensity hasRealSalinity).stations,
    ∀ tp ∈ (loadSiteAndTempDataCore sinM circleCos circleSin randD randS randT
      endYear endMonth stations0 timePoints0 temp0 densityReal salinityReal
      hasRealDensity hasRealSalinity).timePoints,
      ((loadSiteAndTempDataCore sinM circleCos circleSin randD randS randT
        endYear endMonth stations0 timePoints0 temp0 densityReal salinityReal
        hasRealDensity hasRealSalinity).density tp s.id).isSome = true ∧
      ((loadSiteAndTempDataCore sinM circleCos circleSin randD randS randT
        endYear endMonth stations0 timePoints0 temp0 densityReal salinityReal
        hasRealDensity hasRealSalinity).salinity tp s.id).isSome = true := by
  intro s hs tp htp
  unfold loadSiteAndTempDataCore at hs htp ⊢
  by_cases hcond : stations0 ≠ [] ∧ timePoints0 ≠ []
  · rw [if_pos hcond] at hs htp ⊢
    dsimp only at hs htp ⊢
    have hidx := stationIdx_isSome stations0 s hs
    have hany : stations0.any (fun t => t.id = s.id) = true :=
      List.any_eq_true.mpr ⟨s, hs, by simp⟩
    constructor
    · cases hasRealDensity with
      | false =>
        rw [if_neg (by simp)]
        exact generateMockDensity_isSome sinM randD stations0 timePoints0 temp0 tp s.id
          htp hidx
      | true =>
        rw [if_pos rfl]
        exact supplementSeries_isSome densityReal _ stations0 timePoints0 tp s.id
          ⟨htp, hany⟩
          (generateMockDensity_isSome sinM randD stations0 timePoints0 temp0 tp s.id
            htp hidx)
    · cases hasRealSalinity with
      | false =>
        rw [if_neg (by simp)]
        exact generateMockSalinity_isSome sinM randS stations0 timePoints0 temp0 tp s.id
          htp hidx
      | true =>
        rw [if_pos rfl]
        exact supplementSeries_isSome salinityReal _ stations0 timePoints0 tp s.id
          ⟨htp, hany⟩
          (generateMockSalinity_isSome sinM randS stations0 timePoints0 temp0 tp s.id
            htp hidx)
  · rw [if_neg hcond] at hs htp ⊢
    dsimp only at hs htp ⊢
    have hidx := stationIdx_isSome _ s hs
    exact ⟨generateMockDensity_isSome _ _ _ _ _ tp s.id htp hidx,
      generateMockSalinity_isSome _ _ _ _ _ tp s.id htp hidx⟩

/-- Witness for C1 at a concrete one-station, one-month instance. -/
theorem reconciled_series_full_coverage_witness :
    (zeroTempLoad.density (2000, 1) "A").isSome = true ∧
    (zeroTempLoad.salinity (2000, 1) "A").isSome = true :=
  reconciled_series_full_coverage (fun _ => 0) (fun _ => 0) (fun _ => 0)
    (fun _ _ => 1/2) (fun _ _ => 1/2) (fun _ => 1/2) 2000 1
    [{ id := "A", name := "A", longitude := 0, latitude := 0, coordsSource := "geom" }]
    [(2000, 1)] (fun tp => if tp = (2000, 1) then some 0 else none)
    (fun _ _ => none) (fun _ _ => none) false false
    { id := "A", name := "A", longitude := 0, latitude := 0, coordsSource := "geom" }
    (by simp [loadSiteAndTempDataCore])
    (2000, 1)
    (by simp [loadSiteAndTempDataCore])

/-- C4: once at least one real reading exists for a variable (so the
has-real flag is set and the viable branch runs), the reconciled value
at every pair holding a real extracted value is exactly that real
value: the synthetic supplement writes only still-missing pairs. -/
theorem real_data_never_overwritten (sinM circleCos circleSin : ℕ → ℚ)
    (randD randS : TimePoint → ℕ → ℚ) (randT : TimePoint → ℚ)
    (endYear endMonth : ℕ) (stations0 : List Station) (timePoints0 : List TimePoint)
    (temp0 : TimePoint → Option ℚ)
    (densityReal salinityReal : TimePoint → String → Option ℚ)
    (hasRealDensity hasRealSalinity : Bool)
    (hst : stations0 ≠ []) (htps : timePoints0 ≠ [])
    (tp : TimePoint) (sid : String) (v : ℚ) :
    (hasRealDensity = true → densityReal tp sid = some v →
      (loadSiteAndTempDataCore sinM circleCos circleSin randD randS randT
        endYear endMonth stations0 timePoints0 temp0 densityReal salinityReal
        hasRealDensity hasRealSalinity).density tp sid = some v) ∧
    (hasRealSalinity = true → salinityReal tp sid = some v →
      (loadSiteAndTempDataCore sinM circleCos circleSin randD randS randT
        endYear endMonth stations0 timePoints0 temp0 densityReal salinityReal
        hasRealDensity hasRealSalinity).salinity tp sid = some v) := by
  have hcond : stations0 ≠ [] ∧ timePoints0 ≠ [] := ⟨hst, htps⟩
  constructor
  · intro hD hreal
    subst hD
    unfold loadSiteAndTempDataCore
    rw [if_pos hcond]
    dsimp only
    rw [if_pos rfl]
    unfold supplementSeries
    rw [hreal]
  · intro hS hreal
    subst hS
    unfold loadSiteAndTempDataCore
    rw [if_pos hcond]
    dsimp only
    rw [if_pos rfl]
    unfold supplementSeries
    rw [hreal]

/-- Witness for C4 at a concrete instance holding one real density and
one real salinity value. -/
theorem real_data_never_overwritten_witness :
    (loadSiteAndTempDataCore (fun _ => 0) (fun _ => 0) (fun _ => 0)
      (fun _ _ => 1/2) (fun _ _ => 1/2) (fun _ => 1/2) 2000 1
      [{ id := "A", name := "A", longitude := 0, latitude := 0, coordsSource := "geom" }]
      [(2000, 1)] (fun _ => none)
      (fun _ _ => some (118/100)) (fun _ _ => some 200) true true).density
      (2000, 1) "A" = some (118/100) ∧
    (loadSiteAndTempDataCore (fun _ => 0) (fun _ => 0) (fun _ => 0)
      (fun _ _ => 1/2) (fun _ _ => 1/2) (fun _ => 1/2) 2000 1
      [{ id := "A", name := "A", longitude := 0, latitude := 0, coordsSource := "geom" }]
      [(2000, 1)] (fun _ => none)
      (fun _ _ => some (118/100)) (fun _ _ => some 200) true true).salinity
      (2000, 1) "A" = some 200 := by
  constructor
  · exact (real_data_never_overwritten (fun _ => 0) (fun _ => 0) (fun _ => 0)
      (fun _ _ => 1/2) (fun _ _ => 1/2) (fun _ => 1/2) 2000 1
      [{ id := "A", name := "A", longitude := 0, latitude := 0, coordsSource := "geom" }]
      [(2000, 1)] (fun _ => none)
      (fun _ _ => some (118/100)) (fun _ _ => some 200) true true
      (by simp) (by simp) (2000, 1) "A" (118/100)).1 rfl rfl
  · exact (real_data_never_overwritten (fun _ => 0) (fun _ => 0) (fun _ => 0)
      (fun _ _ => 1/2) (fun _ _ => 1/2) (fun _ => 1/2) 2000 1
      [{ id := "A", name := "A", longitude := 0, latitude := 0, coordsSource := "geom" }]
      [(2000, 1)] (fun _ => none)
      (fun _ _ => some (118/100)) (fun _ _ => some 200) true true
      (by simp) (by simp) (2000, 1) "A" 200).2 rfl rfl

/-- C5 counterexample: with the reconciled temperature defined and
equal to zero, the code (JavaScript truthiness) contributes no
temperature factor and produces the density 1.10, while the
specification formula demands the factor minus 0.018 for any residual
in the claimed interval, so no residual reproduces the produced value:
the claimed formula is refuted at a temperature of zero. -/
theorem synthetic_density_ftemp_counterexample :
    ¬ ∃ r : ℚ, -(75/10000) ≤ r ∧ r ≤ 75/10000 ∧
      zeroTempLoad.density (2000, 1) "A" =
        some (max (102/100) (min (128/100)
          (11/10 + specClaimTempFactor (some 0) + ((2000 : ℚ) - 2000) * (5/10000) +
            0 * (1/100) + ((0 : ℚ) / (1 : ℚ)) * (5/100) + r))) := by
  rintro ⟨r, h1, h2, heq⟩
  have hL : zeroTempLoad.density (2000, 1) "A" = some (11/10) := by
    simp [zeroTempLoad, loadSiteAndTempDataCore, generateMockDensityForStations,
      stationIdx, stationIdxGo, mockDensityValue, densityTempFactor]
    norm_num
  rw [hL] at heq
  simp only [Option.some.injEq, specClaimTempFactor] at heq
  have hmin : min ((128:ℚ)/100)
      (11/10 + (0 - 30) / 50 * (3/100) + ((2000 : ℚ) - 2000) * (5/10000) +
        0 * (1/100) + ((0 : ℚ) / (1 : ℚ)) * (5/100) + r) =
      11/10 + (0 - 30) / 50 * (3/100) + ((2000 : ℚ) - 2000) * (5/10000) +
        0 * (1/100) + ((0 : ℚ) / (1 : ℚ)) * (5/100) + r := by
    rw [min_eq_right]
    nlinarith
  rw [hmin, max_eq_right (by nlinarith)] at heq
  nlinarith

/-- C5 amended: with no real density anywhere and viable station and
time-point lists, the reconciled density series is fully synthetic:
each value equals the clamp into the interval from 1.02 to 1.28 of the
base 1.10 plus the temperature factor (applied only when the reconciled
temperature is defined and non-zero, per the JavaScript truthiness
guard of the source), secular, seasonal and station factors, plus a
residual in the interval from minus 0.0075 to 0.0075; in particular
every value lies within 1.02 and 1.28. -/
theorem synthetic_density_formula (sinM circleCos circleSin : ℕ → ℚ)
    (randD randS : TimePoint → ℕ → ℚ) (randT : TimePoint → ℚ)
    (endYear endMonth : ℕ) (stations0 : List Station) (timePoints0 : List TimePoint)
    (temp0 : TimePoint → Option ℚ)
    (densityReal salinityReal : TimePoint → String → Option ℚ)
    (hasRealSalinity : Bool)
    (hrand : ∀ tp i, 0 ≤ randD tp i ∧ randD tp i < 1)
    (hst : stations0 ≠ []) (htps : timePoints0 ≠ [])
    (tp : TimePoint) (htp : tp ∈ timePoints0)
    (sid : String) (i : ℕ) (hidx : stationIdx stations0 sid = some i) :
    ∃ r : ℚ, -(75/10000) ≤ r ∧ r ≤ 75/10000 ∧
      (loadSiteAndTempDataCore sinM circleCos circleSin randD randS randT
        endYear endMonth stations0 timePoints0 temp0 densityReal salinityReal
        false hasRealSalinity).density tp sid =
        some (max (102/100) (min (128/100)
          (11/10 + densityTempFactor (temp0 tp) + ((tp.1 : ℚ) - 2000) * (5/10000) +
            sinM tp.2 * (1/100) + ((i : ℚ) / (stations0.length : ℚ)) * (5/100) + r))) ∧
      ∀ v, (loadSiteAndTempDataCore sinM circleCos circleSin randD randS randT
        endYear endMonth stations0 timePoints0 temp0 densityReal salinityReal
        false hasRealSalinity).density tp sid = some v →
          102/100 ≤ v ∧ v ≤ 128/100 := by
  have hcond : stations0 ≠ [] ∧ timePoints0 ≠ [] := ⟨hst, htps⟩
  have hr := hrand tp i
  refine ⟨(randD tp i - 1/2) * (15/1000), by nlinarith [hr.1], by nlinarith [hr.2], ?_, ?_⟩
  · unfold loadSiteAndTempDataCore
    rw [if_pos hcond]
    dsimp only
    rw [if_neg (by simp)]
    unfold generateMockDensityForStations
    rw [if_pos htp, hidx]
    rfl
  · intro v hv
    unfold loadSiteAndTempDataCore at hv
    rw [if_pos hcond] at hv
    dsimp only at hv
    rw [if_neg (by simp)] at hv
    unfold generateMockDensityForStations at hv
    rw [if_pos htp, hidx] at hv
    simp only [Option.some.injEq] at hv
    subst hv
    unfold mockDensityValue
    constructor
    · exact le_max_left _ _
    · exact max_le (by norm_num) (min_le_left _ _)

/-- Witness for the amended C5 theorem at the concrete zero-temperature
instance, where all structural factors vanish and the produced density
is exactly 1.10. -/
theorem synthetic_density_formula_witness :
    ∃ r : ℚ, -(75/10000) ≤ r ∧ r ≤ 75/10000 ∧
      zeroTempLoad.density (2000, 1) "A" =
        some (max (102/100) (min (128/100)
          (11/10 + densityTempFactor (some 0) + (((2000, 1) : TimePoint).1 - 2000 : ℚ) * (5/10000) +
            (0 : ℚ) * (1/100) + ((0 : ℚ) / ((1 : ℕ) : ℚ)) * (5/100) + r))) ∧
      ∀ v, zeroTempLoad.density (2000, 1) "A" = some v →
        102/100 ≤ v ∧ v ≤ 128/100 := by
  have h := synthetic_density_formula (fun _ => 0) (fun _ => 0) (fun _ => 0)
    (fun _ _ => 1/2) (fun _ _ => 1/2) (fun _ => 1/2) 2000 1
    [{ id := "A", name := "A", longitude := 0, latitude := 0, coordsSource := "geom" }]
    [(2000, 1)] (fun tp => if tp = (2000, 1) then some 0 else none)
    (fun _ _ => none) (fun _ _ => none) false
    (fun _ _ => by norm_num)
    (by simp) (by simp) (2000, 1) (by simp) "A" 0 rfl
  exact h

end GSL
